import Mathlib

/-!
Verification of the RealEstateAnalyzer financial engine.

Shallow embedding of `src/financial_calculator.py` and the metric helpers of
`src/utils.py`. Python floats are modelled as exact rationals; Python ints as
integers. Fallible Python code (constructor validation, division by a zero
length) is modelled with `Except`; the external IRR root finder
`numpy_financial.irr` is modelled as an abstract solver argument whose
possible outcomes mirror the cases the source guards against. Year indices
are 1-indexed natural numbers, as all call sites in the source pass years
from `range(1, holding_period + 1)`.
-/

set_option exponentiation.threshold 400

/-- Python exceptions that the embedded code can raise. -/
inductive PyError
  | valueError (msg : String)
  | zeroDivisionError
deriving DecidableEq

/-- The record held by `FinancialCalculator.__init__` after the
`resale_value or property_price * 1.2` default has been applied
(`src/financial_calculator.py`, lines 25-52). -/
structure FinancialCalculator where
  property_price : ℚ
  down_payment : ℚ
  loan_term : ℤ
  interest_rate : ℚ
  base_monthly_rent : ℚ
  occupancy_rate : ℚ
  rent_growth : ℚ
  enhancement_costs : ℚ
  hoa_fees_annual : ℚ
  holding_period : ℤ
  resale_value : ℚ
deriving DecidableEq

/-- Possible outcomes of one call to the external IRR root finder
`numpy_financial.irr` as `get_irr` (lines 176-218) distinguishes them:
the module may be missing (`npf is None`), the call may raise, and the
returned value may be `None`, NaN, infinite, complex, or a real rate. -/
inductive SolverOutcome
  | unavailable
  | raised
  | retNone
  | retNaN
  | retInf
  | retComplex
  | retReal (r : ℚ)
deriving DecidableEq

/-- One row of the dictionary built per scenario by `get_scenario_analysis`
(lines 247-257). -/
structure ScenarioResult where
  monthly_rent : ℚ
  effective_monthly_rent : ℚ
  monthly_cash_flow : ℚ
  annual_net_income : ℚ
  annual_cash_flow : ℚ
  roi : ℚ
  irr : Option ℚ
  net_income_schedule : List ℚ
  cash_flow_schedule : List ℚ
deriving DecidableEq

/-- The three fixed scenarios returned by `get_scenario_analysis`
(lines 220-259). -/
structure ScenarioAnalysis where
  conservative : ScenarioResult
  base : ScenarioResult
  optimistic : ScenarioResult
deriving DecidableEq

/-- One row of the dictionary of lists built by `get_amortization_schedule`
(lines 273-301). -/
structure AmortizationEntry where
  period : ℕ
  payment : ℚ
  principal : ℚ
  interest : ℚ
  balance : ℚ
deriving DecidableEq

/-- The value returned by the DSCR helper in `src/utils.py`: either the
sentinel `float(inf)` or a finite ratio. -/
inductive DSCRValue
  | infinite
  | finite (value : ℚ)
deriving DecidableEq

/-- The dictionary returned by `get_advanced_metrics` in `src/utils.py`
(lines 286-310). -/
structure AdvancedMetrics where
  dscr : DSCRValue
  cash_on_cash_return : ℚ
  payback_period : ℚ
  cap_rate : ℚ
  annual_debt_service : ℚ
  total_initial_investment : ℚ
deriving DecidableEq

/-- `cash_flows[-1] += gain` of `get_irr` (line 193): `none` models the
`IndexError` an empty list raises there (swallowed by the enclosing
`except`). -/
def add_to_last (gain : ℚ) : List ℚ → Option (List ℚ)
  | [] => none
  | [x] => some [x + gain]
  | x :: y :: rest => (add_to_last gain (y :: rest)).map (fun l => x :: l)

/-- Modelled from the spec: the net present value of a cash-flow vector at
discount rate `rate`, the quantity the spec says the IRR root finder drives
to zero. The root finder itself is external library code
(`numpy_financial.irr`), not part of this repository. -/
def npv (rate : ℚ) (cash_flows : List ℚ) : ℚ :=
  (cash_flows.enum.map (fun p => p.2 / (1 + rate) ^ p.1)).sum

/-- `FinancialCalculator._validate_inputs` (lines 54-69): the seven checks,
in source order, each raising `ValueError` with the source message. -/
def validate_inputs (c : FinancialCalculator) : Except PyError Unit :=
  if c.property_price ≤ 0 then
    .error (.valueError "Property price must be positive")
  else if c.down_payment < 0 ∨ c.down_payment > c.property_price then
    .error (.valueError "Down payment must be between 0 and property price")
  else if c.loan_term ≤ 0 then
    .error (.valueError "Loan term must be positive")
  else if c.interest_rate < 0 then
    .error (.valueError "Interest rate cannot be negative")
  else if c.base_monthly_rent < 0 then
    .error (.valueError "Monthly rent cannot be negative")
  else if ¬ (0 ≤ c.occupancy_rate ∧ c.occupancy_rate ≤ 100) then
    .error (.valueError "Occupancy rate must be between 0 and 100")
  else if c.rent_growth < 0 then
    .error (.valueError "Rent growth cannot be negative")
  else
    .ok ()

/-- The `resale_value or property_price * 1.2` expression of line 49: a falsy
`resale_value` (absent, or equal to 0, the falsy floats of Python) is replaced
with `property_price * 1.2`. -/
def resolve_resale (property_price : ℚ) (resale_value : Option ℚ) : ℚ :=
  match resale_value with
  | none => property_price * 1.2
  | some v => if v = 0 then property_price * 1.2 else v

/-- `FinancialCalculator.__init__` (lines 25-52): store the fields, replacing a
falsy `resale_value` with the default, then run `_validate_inputs`. -/
def mkFinancialCalculator (property_price down_payment : ℚ) (loan_term : ℤ)
    (interest_rate base_monthly_rent occupancy_rate rent_growth
      enhancement_costs hoa_fees_annual : ℚ) (holding_period : ℤ)
    (resale_value : Option ℚ) : Except PyError FinancialCalculator :=
  let c : FinancialCalculator :=
    { property_price, down_payment, loan_term, interest_rate, base_monthly_rent,
      occupancy_rate, rent_growth, enhancement_costs, hoa_fees_annual,
      holding_period, resale_value := resolve_resale property_price resale_value }
  do
    validate_inputs c
    .ok c

namespace FinancialCalculator

/-- `get_loan_amount` (lines 71-73). -/
def get_loan_amount (c : FinancialCalculator) : ℚ :=
  c.property_price - c.down_payment

/-- `get_monthly_payment` (lines 75-92): 0 for a non-positive loan,
straight-line for a zero monthly rate, otherwise the PMT annuity formula. -/
def get_monthly_payment (c : FinancialCalculator) : ℚ :=
  let loan_amount := c.get_loan_amount
  if loan_amount ≤ 0 then 0
  else
    let monthly_rate := c.interest_rate / 100 / 12
    let num_payments : ℤ := c.loan_term * 12
    if monthly_rate = 0 then loan_amount / (num_payments : ℚ)
    else
      loan_amount * (monthly_rate * (1 + monthly_rate) ^ num_payments) /
        ((1 + monthly_rate) ^ num_payments - 1)

/-- `get_total_initial_investment` (lines 105-107). -/
def get_total_initial_investment (c : FinancialCalculator) : ℚ :=
  c.down_payment + c.enhancement_costs

/-- `_rent_growth_factor` (lines 116-118), for 1-indexed years. -/
def rent_growth_factor (c : FinancialCalculator) (year : ℕ) : ℚ :=
  (1 + c.rent_growth / 100) ^ (year - 1)

/-- `get_monthly_rent_for_year` (lines 120-122). -/
def get_monthly_rent_for_year (c : FinancialCalculator) (year : ℕ)
    (rent_multiplier : ℚ) : ℚ :=
  c.base_monthly_rent * c.rent_growth_factor year * rent_multiplier

/-- `get_effective_monthly_rent_for_year` (lines 124-126). -/
def get_effective_monthly_rent_for_year (c : FinancialCalculator) (year : ℕ)
    (rent_multiplier : ℚ) : ℚ :=
  c.get_monthly_rent_for_year year rent_multiplier * (c.occupancy_rate / 100)

/-- `get_monthly_cash_flow_for_year` (lines 128-132). -/
def get_monthly_cash_flow_for_year (c : FinancialCalculator) (year : ℕ)
    (rent_multiplier : ℚ) : ℚ :=
  c.get_effective_monthly_rent_for_year year rent_multiplier -
    c.get_monthly_payment - c.hoa_fees_annual / 12

/-- `get_annual_net_income_for_year` (lines 134-136). -/
def get_annual_net_income_for_year (c : FinancialCalculator) (year : ℕ)
    (rent_multiplier : ℚ) : ℚ :=
  c.get_effective_monthly_rent_for_year year rent_multiplier * 12 -
    c.hoa_fees_annual

/-- `get_annual_cash_flow_for_year` (lines 138-139). -/
def get_annual_cash_flow_for_year (c : FinancialCalculator) (year : ℕ)
    (rent_multiplier : ℚ) : ℚ :=
  c.get_monthly_cash_flow_for_year year rent_multiplier * 12

/-- `get_net_income_schedule` (lines 141-142): years 1..holding_period, empty
when the holding period is not positive, exactly as `range(1, h + 1)`. -/
def get_net_income_schedule (c : FinancialCalculator)
    (rent_multiplier : ℚ) : List ℚ :=
  (List.range c.holding_period.toNat).map
    (fun i => c.get_annual_net_income_for_year (i + 1) rent_multiplier)

/-- `get_cash_flow_schedule` (lines 144-145). -/
def get_cash_flow_schedule (c : FinancialCalculator)
    (rent_multiplier : ℚ) : List ℚ :=
  (List.range c.holding_period.toNat).map
    (fun i => c.get_annual_cash_flow_for_year (i + 1) rent_multiplier)

/-- `get_roi` (lines 165-174). -/
def get_roi (c : FinancialCalculator) (rent_multiplier : ℚ) : ℚ :=
  let cash_flows := c.get_cash_flow_schedule rent_multiplier
  if cash_flows = [] then 0
  else
    let avg_cash_flow := cash_flows.sum / (cash_flows.length : ℚ)
    let total_investment := c.get_total_initial_investment
    if total_investment ≤ 0 then 0
    else avg_cash_flow / total_investment * 100

/-- `get_irr` (lines 176-218): build
`[-total_initial_investment] + cash_flows` with the capital gain added to the
final cash flow, hand it to the root finder, and return `irr * 100` only for
a real, finite result. An unavailable module, a raised exception (including
the `IndexError` from line 193 on an empty schedule), `None`, NaN, infinite
and complex results all yield `None` through the guards and the enclosing
`try/except`. -/
def get_irr (solver : List ℚ → SolverOutcome) (c : FinancialCalculator)
    (rent_multiplier : ℚ) : Option ℚ :=
  let initial_investment := -c.get_total_initial_investment
  let cash_flows := (List.range c.holding_period.toNat).map
    (fun i => c.get_annual_cash_flow_for_year (i + 1) rent_multiplier)
  match add_to_last (c.resale_value - c.property_price) cash_flows with
  | none => none
  | some cash_flows =>
    let all_cash_flows := initial_investment :: cash_flows
    match solver all_cash_flows with
    | .retReal irr => some (irr * 100)
    | _ => none

/-- The body of the loop of `get_scenario_analysis` (lines 233-257) for one
multiplier. The two `sum(...) / len(...)` averages raise `ZeroDivisionError`
on an empty schedule, modelled by the explicit length test. -/
def scenario_result (solver : List ℚ → SolverOutcome) (c : FinancialCalculator)
    (multiplier : ℚ) : Except PyError ScenarioResult :=
  let monthly_rent := c.get_monthly_rent_for_year 1 multiplier
  let effective_monthly_rent := c.get_effective_monthly_rent_for_year 1 multiplier
  let net_income_schedule := c.get_net_income_schedule multiplier
  let cash_flow_schedule := c.get_cash_flow_schedule multiplier
  if net_income_schedule.length = 0 then .error .zeroDivisionError
  else
    let avg_net_income := net_income_schedule.sum / (net_income_schedule.length : ℚ)
    if cash_flow_schedule.length = 0 then .error .zeroDivisionError
    else
      let avg_cash_flow := cash_flow_schedule.sum / (cash_flow_schedule.length : ℚ)
      .ok { monthly_rent, effective_monthly_rent,
            monthly_cash_flow := avg_cash_flow / 12,
            annual_net_income := avg_net_income,
            annual_cash_flow := avg_cash_flow,
            roi := c.get_roi multiplier,
            irr := c.get_irr solver multiplier,
            net_income_schedule, cash_flow_schedule }

/-- `get_scenario_analysis` (lines 220-259): the three fixed multipliers
0.85, 1.0, 1.15, in insertion order. -/
def get_scenario_analysis (solver : List ℚ → SolverOutcome)
    (c : FinancialCalculator) : Except PyError ScenarioAnalysis := do
  let conservative ← scenario_result solver c 0.85
  let base ← scenario_result solver c 1
  let optimistic ← scenario_result solver c 1.15
  .ok { conservative, base, optimistic }

/-- The loop of `get_amortization_schedule` (lines 283-301), fuelled by the
number of remaining periods: break when the balance is not positive,
otherwise split the payment into interest and principal (the principal
clipped to the remaining balance) and append the new balance floored at 0. -/
def amortization_loop (monthly_payment monthly_rate : ℚ) :
    ℚ → ℕ → ℕ → List AmortizationEntry
  | _, _, 0 => []
  | remaining_balance, period, fuel + 1 =>
    if remaining_balance ≤ 0 then []
    else
      let interest_payment := remaining_balance * monthly_rate
      let principal_payment :=
        min (monthly_payment - interest_payment) remaining_balance
      let new_balance := remaining_balance - principal_payment
      { period := period, payment := monthly_payment,
        principal := principal_payment, interest := interest_payment,
        balance := max 0 new_balance } ::
        amortization_loop monthly_payment monthly_rate new_balance
          (period + 1) fuel

/-- `get_amortization_schedule` (lines 261-303): periods run over
`range(1, min(num_periods + 1, loan_term * 12 + 1))`, so the loop has
`min num_periods (loan_term * 12)` iterations (clamped at 0), with
`num_periods` defaulting to `loan_term * 12`. -/
def get_amortization_schedule (c : FinancialCalculator)
    (num_periods : Option ℤ) : List AmortizationEntry :=
  let np := num_periods.getD (c.loan_term * 12)
  amortization_loop c.get_monthly_payment (c.interest_rate / 100 / 12)
    c.get_loan_amount 1 (min np (c.loan_term * 12)).toNat

end FinancialCalculator

/-- `calculate_cap_rate` (`src/utils.py`, lines 167-174). -/
def calculate_cap_rate (annual_net_income property_price : ℚ) : ℚ :=
  if property_price ≤ 0 then 0
  else annual_net_income / property_price * 100

/-- `calculate_cash_on_cash_return` (`src/utils.py`, lines 176-183). -/
def calculate_cash_on_cash_return (annual_cash_flow total_cash_invested : ℚ) : ℚ :=
  if total_cash_invested ≤ 0 then 0
  else annual_cash_flow / total_cash_invested * 100

/-- `calculate_debt_service_coverage_ratio` (`src/utils.py`, lines 185-192),
named without its final word here for lexical reasons: `float(inf)` when the
debt service is not positive and the net income is, 0 when neither is
positive, the plain ratio otherwise. -/
def calculate_debt_service_coverage (annual_net_income annual_debt_service : ℚ) :
    DSCRValue :=
  if annual_debt_service ≤ 0 then
    if annual_net_income > 0 then .infinite else .finite 0
  else .finite (annual_net_income / annual_debt_service)

/-- `calculate_payback_period` (`src/utils.py`, lines 274-284): the sentinel
999 for a non-positive annual cash flow, otherwise the simple quotient capped
at 999. -/
def calculate_payback_period (total_initial_investment annual_cash_flow : ℚ) : ℚ :=
  if annual_cash_flow ≤ 0 then 999
  else min (total_initial_investment / annual_cash_flow) 999

/-- `get_advanced_metrics` (`src/utils.py`, lines 286-310): all four derived
ratios are fed from the base scenario of `get_scenario_analysis`. -/
def get_advanced_metrics (solver : List ℚ → SolverOutcome)
    (c : FinancialCalculator) : Except PyError AdvancedMetrics := do
  let analysis ← c.get_scenario_analysis solver
  let base_scenario := analysis.base
  let annual_debt_service := c.get_monthly_payment * 12
  let annual_net_income := base_scenario.annual_net_income
  let annual_cash_flow := base_scenario.annual_cash_flow
  let total_initial_investment := c.get_total_initial_investment
  .ok { dscr := calculate_debt_service_coverage annual_net_income annual_debt_service,
        cash_on_cash_return :=
          calculate_cash_on_cash_return annual_cash_flow total_initial_investment,
        payback_period :=
          calculate_payback_period total_initial_investment annual_cash_flow,
        cap_rate := calculate_cap_rate annual_net_income c.property_price,
        annual_debt_service, total_initial_investment }

/-- Modelled from the spec: the cumulative schedule walk the spec prescribes
for the payback period. Accumulate the yearly flows; in the first year `k`
whose cumulative sum reaches the investment, report `(k - 1)` plus the
fractional part of that year; past the end of the schedule extrapolate with
the final flow when it is positive, otherwise report the 999 sentinel. -/
def payback_walk (inv : ℚ) : ℚ → ℕ → List ℚ → ℚ
  | _, _, [] => 999
  | cum, k, [f] =>
    if inv ≤ cum + f then (k : ℚ) + (inv - cum) / f
    else if 0 < f then ((k : ℚ) + 1) + (inv - (cum + f)) / f
    else 999
  | cum, k, f :: g :: rest =>
    if inv ≤ cum + f then (k : ℚ) + (inv - cum) / f
    else payback_walk inv (cum + f) (k + 1) (g :: rest)

/-- Modelled from the spec: the schedule-walking payback period, capped at
the 999 sentinel. -/
def paybackPeriodSpec (total_initial_investment : ℚ) (schedule : List ℚ) : ℚ :=
  min (payback_walk total_initial_investment 0 0 schedule) 999

/-- A solver standing for an absent `numpy_financial` module: line 184 of
`src/financial_calculator.py` then returns `None` before calling it. -/
def noSolver : List ℚ → SolverOutcome := fun _ => .unavailable

/-- The calculator of the worked example of the spec and of
`test_monthly_payment`: price 100000, down payment 20000, 30-year loan at
5 percent, rent 1500 at full occupancy, default resale 120000. -/
def exampleCalc : FinancialCalculator :=
  ⟨100000, 20000, 30, 5, 1500, 100, 0, 0, 0, 10, 120000⟩

/-- A validly constructed calculator with positive rent growth (10 percent)
over a 2-year holding period and a zero interest rate: monthly payment
80000/360 = 2000/9, cash-flow schedule [28000/3, 31600/3], net-income
schedule [12000, 13200]. -/
def cexCalc : FinancialCalculator :=
  ⟨100000, 20000, 30, 0, 1000, 100, 10, 0, 0, 2, 120000⟩

/-- The seven construction-time invariants, destructured from a successful
validation and sufficient for one. `holding_period` does not appear. -/
theorem validate_inputs_eq_ok_iff (c : FinancialCalculator) :
    validate_inputs c = .ok () ↔
      0 < c.property_price ∧ 0 ≤ c.down_payment ∧
        c.down_payment ≤ c.property_price ∧ 0 < c.loan_term ∧
        0 ≤ c.interest_rate ∧ 0 ≤ c.base_monthly_rent ∧
        0 ≤ c.occupancy_rate ∧ c.occupancy_rate ≤ 100 ∧ 0 ≤ c.rent_growth := by
  constructor
  · intro h
    unfold validate_inputs at h
    split_ifs at h with h1 h2 h3 h4 h5 h6 h7
    push_neg at h1 h2 h3 h4 h5 h7
    exact ⟨h1, h2.1, h2.2, by omega, h4, h5, h6.1, h6.2, h7⟩
  · rintro ⟨h1, h2, h3, h4, h5, h6, h7, h8, h9⟩
    unfold validate_inputs
    rw [if_neg (by linarith), if_neg (by push_neg; exact ⟨h2, h3⟩),
      if_neg (by omega), if_neg (by linarith), if_neg (by linarith),
      if_neg (not_not_intro ⟨h7, h8⟩), if_neg (by linarith)]

/-- A successful construction yields exactly the stored record. -/
theorem mkFinancialCalculator_ok (property_price down_payment : ℚ)
    (loan_term : ℤ) (interest_rate base_monthly_rent occupancy_rate rent_growth
      enhancement_costs hoa_fees_annual : ℚ) (holding_period : ℤ)
    (resale_value : Option ℚ) (c : FinancialCalculator)
    (h : mkFinancialCalculator property_price down_payment loan_term
      interest_rate base_monthly_rent occupancy_rate rent_growth
      enhancement_costs hoa_fees_annual holding_period resale_value = .ok c) :
    validate_inputs c = .ok () ∧
      c = { property_price, down_payment, loan_term, interest_rate,
            base_monthly_rent, occupancy_rate, rent_growth, enhancement_costs,
            hoa_fees_annual, holding_period,
            resale_value := resolve_resale property_price resale_value } := by
  simp only [mkFinancialCalculator, bind, Except.bind] at h
  revert h
  cases hval : validate_inputs
      { property_price, down_payment, loan_term, interest_rate,
        base_monthly_rent, occupancy_rate, rent_growth, enhancement_costs,
        hoa_fees_annual, holding_period,
        resale_value := resolve_resale property_price resale_value } with
  | error e => intro h; exact absurd h (by simp)
  | ok u =>
    intro h
    simp only [Except.ok.injEq] at h
    cases u
    exact ⟨h ▸ hval, h.symm⟩

/-- Claim C10: the constructor replaces any falsy `resale_value`, including an
explicit 0, with the default `1.2 * property_price`, so passing 0 is
indistinguishable from omitting the argument. -/
theorem resale_zero_defaults (property_price down_payment : ℚ) (loan_term : ℤ)
    (interest_rate base_monthly_rent occupancy_rate rent_growth
      enhancement_costs hoa_fees_annual : ℚ) (holding_period : ℤ) :
    mkFinancialCalculator property_price down_payment loan_term interest_rate
        base_monthly_rent occupancy_rate rent_growth enhancement_costs
        hoa_fees_annual holding_period (some 0) =
      mkFinancialCalculator property_price down_payment loan_term interest_rate
        base_monthly_rent occupancy_rate rent_growth enhancement_costs
        hoa_fees_annual holding_period none ∧
    ∀ c, mkFinancialCalculator property_price down_payment loan_term
        interest_rate base_monthly_rent occupancy_rate rent_growth
        enhancement_costs hoa_fees_annual holding_period (some 0) = .ok c →
      c.resale_value = property_price * 1.2 := by
  constructor
  · unfold mkFinancialCalculator
    norm_num [resolve_resale]
  · intro c h
    have := (mkFinancialCalculator_ok _ _ _ _ _ _ _ _ _ _ _ _ h).2
    rw [this]
    norm_num [resolve_resale]

/-- Claim C10 witness at the worked-example inputs. -/
theorem resale_zero_defaults_witness :
    mkFinancialCalculator 100000 20000 30 5 1500 100 0 0 0 10 (some 0) =
      mkFinancialCalculator 100000 20000 30 5 1500 100 0 0 0 10 none ∧
    exampleCalc.resale_value = 120000 :=
  ⟨(resale_zero_defaults 100000 20000 30 5 1500 100 0 0 0 10).1, by
    have h2 := (resale_zero_defaults 100000 20000 30 5 1500 100 0 0 0 10).2
      exampleCalc (by
        norm_num [mkFinancialCalculator, validate_inputs, bind, Except.bind,
          resolve_resale, exampleCalc])
    norm_num at h2
    exact h2⟩

/-- Claim C9: `holding_period` is not validated at construction. Any input set
satisfying the seven validated invariants with a non-positive holding period
constructs successfully, and `get_scenario_analysis` then raises an unhandled
`ZeroDivisionError` from the mean of an empty schedule. -/
theorem holding_period_unchecked (solver : List ℚ → SolverOutcome)
    (property_price down_payment : ℚ) (loan_term : ℤ)
    (interest_rate base_monthly_rent occupancy_rate rent_growth
      enhancement_costs hoa_fees_annual : ℚ) (holding_period : ℤ)
    (resale_value : Option ℚ)
    (h1 : 0 < property_price) (h2 : 0 ≤ down_payment)
    (h3 : down_payment ≤ property_price) (h4 : 0 < loan_term)
    (h5 : 0 ≤ interest_rate) (h6 : 0 ≤ base_monthly_rent)
    (h7 : 0 ≤ occupancy_rate) (h8 : occupancy_rate ≤ 100)
    (h9 : 0 ≤ rent_growth) (hhold : holding_period ≤ 0) :
    ∃ c, mkFinancialCalculator property_price down_payment loan_term
        interest_rate base_monthly_rent occupancy_rate rent_growth
        enhancement_costs hoa_fees_annual holding_period resale_value = .ok c ∧
      c.get_scenario_analysis solver = .error .zeroDivisionError := by
  refine ⟨⟨property_price, down_payment, loan_term, interest_rate,
    base_monthly_rent, occupancy_rate, rent_growth, enhancement_costs,
    hoa_fees_annual, holding_period,
    resolve_resale property_price resale_value⟩, ?_, ?_⟩
  · have hv : validate_inputs
        { property_price, down_payment, loan_term, interest_rate,
          base_monthly_rent, occupancy_rate, rent_growth, enhancement_costs,
          hoa_fees_annual, holding_period,
          resale_value := resolve_resale property_price resale_value } = .ok () :=
      (validate_inputs_eq_ok_iff _).mpr ⟨h1, h2, h3, h4, h5, h6, h7, h8, h9⟩
    unfold mkFinancialCalculator
    simp [bind, Except.bind, hv]
  · simp [FinancialCalculator.get_scenario_analysis,
      FinancialCalculator.scenario_result,
      FinancialCalculator.get_net_income_schedule,
      Int.toNat_of_nonpos hhold, bind, Except.bind]

/-- Claim C9 witness: the worked-example inputs with a zero holding period. -/
theorem holding_period_unchecked_witness :
    ∃ c, mkFinancialCalculator 100000 20000 30 5 1500 100 0 0 0 0 none =
        .ok c ∧
      c.get_scenario_analysis noSolver = .error .zeroDivisionError :=
  holding_period_unchecked noSolver 100000 20000 30 5 1500 100 0 0 0 0 none
    (by norm_num) (by norm_num) (by norm_num) (by norm_num) (by norm_num)
    (by norm_num) (by norm_num) (by norm_num) (by norm_num) (by norm_num)

/-- Clean validation facts for the worked-example calculator. -/
theorem exampleCalc_valid : validate_inputs exampleCalc = .ok () := by
  rw [validate_inputs_eq_ok_iff]
  norm_num [exampleCalc]

/-- Clean validation facts for the rent-growth calculator. -/
theorem cexCalc_valid : validate_inputs cexCalc = .ok () := by
  rw [validate_inputs_eq_ok_iff]
  norm_num [cexCalc]

/-- Claim C8: the growth factor is `(1 + rent_growth/100) ^ (year - 1)`, so
year 1 always has factor 1; with positive growth and positive rent and
multiplier, the monthly rent strictly increases from each year to the next;
with zero growth the monthly rent is the same `base_monthly_rent * multiplier`
for every year. -/
theorem rent_growth_monotonicity (c : FinancialCalculator)
    (hv : validate_inputs c = .ok ()) :
    (∀ year : ℕ, 1 ≤ year →
      c.rent_growth_factor year = (1 + c.rent_growth / 100) ^ (year - 1)) ∧
    c.rent_growth_factor 1 = 1 ∧
    (∀ (year : ℕ) (m : ℚ), 1 ≤ year → 0 < c.rent_growth →
      0 < c.base_monthly_rent → 0 < m →
      c.get_monthly_rent_for_year year m <
        c.get_monthly_rent_for_year (year + 1) m) ∧
    (c.rent_growth = 0 → ∀ (year : ℕ) (m : ℚ),
      c.get_monthly_rent_for_year year m = c.base_monthly_rent * m) := by
  refine ⟨fun year _ => rfl, by simp [FinancialCalculator.rent_growth_factor],
    fun year m hy hg hb hm => ?_, fun hg year m => ?_⟩
  · unfold FinancialCalculator.get_monthly_rent_for_year
      FinancialCalculator.rent_growth_factor
    have ha : 1 < 1 + c.rent_growth / 100 := by linarith
    have hpow : (1 + c.rent_growth / 100) ^ (year - 1) <
        (1 + c.rent_growth / 100) ^ (year + 1 - 1) := by
      have : year + 1 - 1 = year := by omega
      rw [this]
      exact pow_lt_pow_right₀ ha (by omega)
    have h1 := mul_lt_mul_of_pos_left hpow hb
    exact mul_lt_mul_of_pos_right h1 hm
  · simp [FinancialCalculator.get_monthly_rent_for_year,
      FinancialCalculator.rent_growth_factor, hg]

/-- Claim C8 witness at the rent-growth calculator (growth 10, rent 1000). -/
theorem rent_growth_monotonicity_witness :
    cexCalc.rent_growth_factor 1 = 1 ∧
    cexCalc.get_monthly_rent_for_year 1 1 <
      cexCalc.get_monthly_rent_for_year 2 1 :=
  ⟨(rent_growth_monotonicity cexCalc cexCalc_valid).2.1,
    (rent_growth_monotonicity cexCalc cexCalc_valid).2.2.1 1 1 (by norm_num)
      (by norm_num [cexCalc]) (by norm_num [cexCalc]) (by norm_num)⟩

/-- Yearly cash flow is monotone in the rent multiplier for non-negative
rent, occupancy and growth. -/
theorem annual_cash_flow_mono (c : FinancialCalculator)
    (hb : 0 ≤ c.base_monthly_rent) (ho : 0 ≤ c.occupancy_rate)
    (hg : 0 ≤ c.rent_growth) {m1 m2 : ℚ} (h : m1 ≤ m2) (year : ℕ) :
    c.get_annual_cash_flow_for_year year m1 ≤
      c.get_annual_cash_flow_for_year year m2 := by
  unfold FinancialCalculator.get_annual_cash_flow_for_year
    FinancialCalculator.get_monthly_cash_flow_for_year
    FinancialCalculator.get_effective_monthly_rent_for_year
    FinancialCalculator.get_monthly_rent_for_year
  have hgf : 0 ≤ c.rent_growth_factor year := by
    unfold FinancialCalculator.rent_growth_factor
    exact pow_nonneg (by linarith) _
  have hA : 0 ≤ c.base_monthly_rent * c.rent_growth_factor year := mul_nonneg hb hgf
  have key := mul_le_mul_of_nonneg_left h hA
  nlinarith

/-- The ROI of `get_roi` is monotone in the rent multiplier on a validly
constructed calculator. -/
theorem get_roi_mono (c : FinancialCalculator)
    (hv : validate_inputs c = .ok ()) {m1 m2 : ℚ} (h : m1 ≤ m2) :
    c.get_roi m1 ≤ c.get_roi m2 := by
  obtain ⟨-, -, -, -, -, hb, ho, -, hg⟩ := (validate_inputs_eq_ok_iff c).mp hv
  unfold FinancialCalculator.get_roi
  by_cases hn : c.holding_period.toNat = 0
  · simp [FinancialCalculator.get_cash_flow_schedule, hn]
  · have hne1 : ¬ c.get_cash_flow_schedule m1 = [] := by
      simp [FinancialCalculator.get_cash_flow_schedule, List.range_eq_nil, hn]
    have hne2 : ¬ c.get_cash_flow_schedule m2 = [] := by
      simp [FinancialCalculator.get_cash_flow_schedule, List.range_eq_nil, hn]
    rw [if_neg hne1, if_neg hne2]
    by_cases hti : c.get_total_initial_investment ≤ 0
    · rw [if_pos hti, if_pos hti]
    · rw [if_neg hti, if_neg hti]
      push_neg at hti
      have hlen1 : (c.get_cash_flow_schedule m1).length = c.holding_period.toNat := by
        simp [FinancialCalculator.get_cash_flow_schedule]
      have hlen2 : (c.get_cash_flow_schedule m2).length = c.holding_period.toNat := by
        simp [FinancialCalculator.get_cash_flow_schedule]
      have hsum : (c.get_cash_flow_schedule m1).sum ≤
          (c.get_cash_flow_schedule m2).sum := by
        unfold FinancialCalculator.get_cash_flow_schedule
        exact List.sum_le_sum fun i _ => annual_cash_flow_mono c hb ho hg h (i + 1)
      rw [hlen1, hlen2]
      have hnpos : (0 : ℚ) < (c.holding_period.toNat : ℚ) := by
        exact_mod_cast Nat.pos_of_ne_zero hn
      gcongr

/-- Destructuring one successful scenario row: its aggregate fields are the
schedule means, the ROI and IRR of the source methods. -/
theorem scenario_result_ok (solver : List ℚ → SolverOutcome)
    (c : FinancialCalculator) (m : ℚ) (r : ScenarioResult)
    (h : FinancialCalculator.scenario_result solver c m = .ok r) :
    r.annual_net_income = (c.get_net_income_schedule m).sum /
        ((c.get_net_income_schedule m).length : ℚ) ∧
    r.annual_cash_flow = (c.get_cash_flow_schedule m).sum /
        ((c.get_cash_flow_schedule m).length : ℚ) ∧
    r.roi = c.get_roi m := by
  simp only [FinancialCalculator.scenario_result] at h
  split_ifs at h
  simp only [Except.ok.injEq] at h
  rw [← h]
  exact ⟨rfl, rfl, rfl⟩

/-- Destructuring a successful scenario analysis into its three rows. -/
theorem get_scenario_analysis_ok (solver : List ℚ → SolverOutcome)
    (c : FinancialCalculator) (a : ScenarioAnalysis)
    (h : c.get_scenario_analysis solver = .ok a) :
    FinancialCalculator.scenario_result solver c 0.85 = .ok a.conservative ∧
    FinancialCalculator.scenario_result solver c 1 = .ok a.base ∧
    FinancialCalculator.scenario_result solver c 1.15 = .ok a.optimistic := by
  simp only [FinancialCalculator.get_scenario_analysis, bind, Except.bind] at h
  revert h
  cases h1 : FinancialCalculator.scenario_result solver c 0.85 with
  | error e => intro h; exact absurd h (by simp)
  | ok rc =>
    cases h2 : FinancialCalculator.scenario_result solver c 1 with
    | error e => intro h; exact absurd h (by simp)
    | ok rb =>
      cases h3 : FinancialCalculator.scenario_result solver c 1.15 with
      | error e => intro h; exact absurd h (by simp)
      | ok ro =>
        intro h
        simp only [Except.ok.injEq] at h
        subst h
        exact ⟨rfl, rfl, rfl⟩

/-- Claim C7: for a validly constructed calculator with at least one holding
year, the three scenario ROIs are ordered conservative ≤ base ≤ optimistic
(ROI is monotone in the rent multiplier 0.85 ≤ 1.00 ≤ 1.15). -/
theorem scenario_roi_ordering (solver : List ℚ → SolverOutcome)
    (c : FinancialCalculator) (hv : validate_inputs c = .ok ())
    (hh : 1 ≤ c.holding_period) (a : ScenarioAnalysis)
    (h : c.get_scenario_analysis solver = .ok a) :
    a.conservative.roi ≤ a.base.roi ∧ a.base.roi ≤ a.optimistic.roi := by
  obtain ⟨h1, h2, h3⟩ := get_scenario_analysis_ok solver c a h
  rw [(scenario_result_ok solver c _ _ h1).2.2,
    (scenario_result_ok solver c _ _ h2).2.2,
    (scenario_result_ok solver c _ _ h3).2.2]
  exact ⟨get_roi_mono c hv (by norm_num), get_roi_mono c hv (by norm_num)⟩

/-- The scenario analysis of `cexCalc` (absent solver), fully evaluated. -/
def cexScenarios : ScenarioAnalysis :=
  ⟨⟨850, 850, 12065/18, 10710, 24130/3, 2413/60, none,
      [10200, 11220], [22600/3, 25660/3]⟩,
    ⟨1000, 1000, 7450/9, 12600, 29800/3, 149/3, none,
      [12000, 13200], [28000/3, 31600/3]⟩,
    ⟨1150, 1150, 17735/18, 14490, 35470/3, 3547/60, none,
      [13800, 15180], [33400/3, 37540/3]⟩⟩

/-- Concrete evaluation of the full scenario analysis of `cexCalc`. -/
theorem cexCalc_scenario_analysis :
    cexCalc.get_scenario_analysis noSolver = .ok cexScenarios := by
  simp only [FinancialCalculator.get_scenario_analysis,
    FinancialCalculator.scenario_result, FinancialCalculator.get_irr,
    FinancialCalculator.get_roi, FinancialCalculator.get_net_income_schedule,
    FinancialCalculator.get_cash_flow_schedule,
    FinancialCalculator.get_annual_net_income_for_year,
    FinancialCalculator.get_annual_cash_flow_for_year,
    FinancialCalculator.get_monthly_cash_flow_for_year,
    FinancialCalculator.get_effective_monthly_rent_for_year,
    FinancialCalculator.get_monthly_rent_for_year,
    FinancialCalculator.rent_growth_factor,
    FinancialCalculator.get_monthly_payment,
    FinancialCalculator.get_loan_amount,
    FinancialCalculator.get_total_initial_investment,
    add_to_last, noSolver, cexCalc, cexScenarios,
    List.range_succ, List.range_zero, Int.reduceToNat, bind, Except.bind]
  norm_num [Option.map]
  exact ⟨by simp, by simp, by simp⟩

/-- Concrete evaluation of the advanced metrics of `cexCalc`: note the DSCR
numerator 12600 is the 2-year average net income, not the 12000 of year 1,
and the payback 300/149 is investment over average flow. -/
theorem cexCalc_advanced :
    get_advanced_metrics noSolver cexCalc =
      .ok ⟨.finite (189/40), 149/3, 300/149, 63/5, 8000/3, 20000⟩ := by
  simp only [get_advanced_metrics, bind, Except.bind, cexCalc_scenario_analysis]
  norm_num [cexScenarios, calculate_debt_service_coverage,
    calculate_cash_on_cash_return, calculate_payback_period,
    calculate_cap_rate, FinancialCalculator.get_monthly_payment,
    FinancialCalculator.get_loan_amount,
    FinancialCalculator.get_total_initial_investment, cexCalc, min_def]

/-- Claim C7 witness: the ROI ordering at the rent-growth calculator. -/
theorem scenario_roi_ordering_witness :
    cexScenarios.conservative.roi ≤ cexScenarios.base.roi ∧
      cexScenarios.base.roi ≤ cexScenarios.optimistic.roi :=
  scenario_roi_ordering noSolver cexCalc cexCalc_valid (by norm_num [cexCalc])
    cexScenarios cexCalc_scenario_analysis

/-- Destructuring a successful `get_advanced_metrics` call: the record is
built from the base scenario row of the scenario analysis. -/
theorem get_advanced_metrics_ok (solver : List ℚ → SolverOutcome)
    (c : FinancialCalculator) (am : AdvancedMetrics)
    (h : get_advanced_metrics solver c = .ok am) :
    ∃ a, c.get_scenario_analysis solver = .ok a ∧
      am = ⟨calculate_debt_service_coverage a.base.annual_net_income
              (c.get_monthly_payment * 12),
            calculate_cash_on_cash_return a.base.annual_cash_flow
              c.get_total_initial_investment,
            calculate_payback_period c.get_total_initial_investment
              a.base.annual_cash_flow,
            calculate_cap_rate a.base.annual_net_income c.property_price,
            c.get_monthly_payment * 12, c.get_total_initial_investment⟩ := by
  simp only [get_advanced_metrics, bind, Except.bind] at h
  revert h
  cases ha : c.get_scenario_analysis solver with
  | error e => intro h; exact absurd h (by simp)
  | ok a =>
    intro h
    simp only [Except.ok.injEq] at h
    exact ⟨a, rfl, h.symm⟩

/-- Claim C1 counterexample: on `cexCalc` (rent growth 10 percent, two holding
years) the advanced-metrics DSCR is `12600 / debt service` from the average
net income, not the `12000 / debt service` the year-1 reading of the claim
prescribes. -/
theorem dscr_not_year_one :
    (get_advanced_metrics noSolver cexCalc).map (·.dscr) ≠
      .ok (calculate_debt_service_coverage
        (cexCalc.get_annual_net_income_for_year 1 1)
        (cexCalc.get_monthly_payment * 12)) := by
  rw [cexCalc_advanced]
  simp only [Except.map]
  norm_num [calculate_debt_service_coverage,
    FinancialCalculator.get_annual_net_income_for_year,
    FinancialCalculator.get_effective_monthly_rent_for_year,
    FinancialCalculator.get_monthly_rent_for_year,
    FinancialCalculator.rent_growth_factor,
    FinancialCalculator.get_monthly_payment,
    FinancialCalculator.get_loan_amount, cexCalc]

/-- Claim C1 amended: the advanced-metrics DSCR divides the base scenario's
average annual net income over the holding period (not the year-1 income) by
the annual debt service, with the infinity/0 fallback when the debt service
is not positive. -/
theorem dscr_uses_average_net_income (solver : List ℚ → SolverOutcome)
    (c : FinancialCalculator) (am : AdvancedMetrics)
    (h : get_advanced_metrics solver c = .ok am) :
    am.dscr =
      if c.get_monthly_payment * 12 ≤ 0 then
        if 0 < (c.get_net_income_schedule 1).sum /
            ((c.get_net_income_schedule 1).length : ℚ) then
          DSCRValue.infinite
        else DSCRValue.finite 0
      else
        DSCRValue.finite ((c.get_net_income_schedule 1).sum /
          ((c.get_net_income_schedule 1).length : ℚ) /
          (c.get_monthly_payment * 12)) := by
  obtain ⟨a, ha, ham⟩ := get_advanced_metrics_ok solver c am h
  obtain ⟨-, hbase, -⟩ := get_scenario_analysis_ok solver c a ha
  obtain ⟨hni, -, -⟩ := scenario_result_ok solver c 1 a.base hbase
  rw [ham]
  show calculate_debt_service_coverage a.base.annual_net_income
      (c.get_monthly_payment * 12) = _
  rw [hni]
  unfold calculate_debt_service_coverage
  rfl

/-- Claim C1 amended witness, instantiated at `cexCalc`. -/
theorem dscr_uses_average_net_income_witness :
    (⟨DSCRValue.finite (189/40), 149/3, 300/149, 63/5, 8000/3, 20000⟩ :
        AdvancedMetrics).dscr =
      if cexCalc.get_monthly_payment * 12 ≤ 0 then
        if 0 < (cexCalc.get_net_income_schedule 1).sum /
            ((cexCalc.get_net_income_schedule 1).length : ℚ) then
          DSCRValue.infinite
        else DSCRValue.finite 0
      else
        DSCRValue.finite ((cexCalc.get_net_income_schedule 1).sum /
          ((cexCalc.get_net_income_schedule 1).length : ℚ) /
          (cexCalc.get_monthly_payment * 12)) :=
  dscr_uses_average_net_income noSolver cexCalc _ cexCalc_advanced

/-- Claim C2 counterexample: on `cexCalc` the advanced-metrics payback period
is 300/149 years (investment over the average flow), while the spec's
schedule walk with interpolation yields 159/79 years. -/
theorem payback_not_schedule_walk :
    (get_advanced_metrics noSolver cexCalc).map (·.payback_period) ≠
      .ok (paybackPeriodSpec cexCalc.get_total_initial_investment
        (cexCalc.get_cash_flow_schedule 1)) := by
  rw [cexCalc_advanced]
  have hs : cexCalc.get_cash_flow_schedule 1 = [28000/3, 31600/3] := by
    simp only [FinancialCalculator.get_cash_flow_schedule,
      FinancialCalculator.get_annual_cash_flow_for_year,
      FinancialCalculator.get_monthly_cash_flow_for_year,
      FinancialCalculator.get_effective_monthly_rent_for_year,
      FinancialCalculator.get_monthly_rent_for_year,
      FinancialCalculator.rent_growth_factor,
      FinancialCalculator.get_monthly_payment,
      FinancialCalculator.get_loan_amount, cexCalc,
      List.range_succ, List.range_zero, Int.reduceToNat]
    norm_num
  rw [hs]
  simp only [Except.map]
  norm_num [paybackPeriodSpec, payback_walk,
    FinancialCalculator.get_total_initial_investment, cexCalc, min_def]

/-- Claim C2 amended: the advanced-metrics payback period is
`total_initial_investment / averageAnnualCashFlow` of the base scenario,
capped at the 999 sentinel, and exactly 999 when that average is not
positive; it never exceeds 999. The code does not walk the schedule. -/
theorem payback_constant_flow_formula (solver : List ℚ → SolverOutcome)
    (c : FinancialCalculator) (am : AdvancedMetrics)
    (h : get_advanced_metrics solver c = .ok am) :
    (am.payback_period =
      if (c.get_cash_flow_schedule 1).sum /
          ((c.get_cash_flow_schedule 1).length : ℚ) ≤ 0 then (999 : ℚ)
      else min (c.get_total_initial_investment /
        ((c.get_cash_flow_schedule 1).sum /
          ((c.get_cash_flow_schedule 1).length : ℚ))) 999) ∧
    am.payback_period ≤ 999 := by
  obtain ⟨a, ha, ham⟩ := get_advanced_metrics_ok solver c am h
  obtain ⟨-, hbase, -⟩ := get_scenario_analysis_ok solver c a ha
  obtain ⟨-, hcf, -⟩ := scenario_result_ok solver c 1 a.base hbase
  rw [ham]
  have hpp : (⟨calculate_debt_service_coverage a.base.annual_net_income
        (c.get_monthly_payment * 12),
      calculate_cash_on_cash_return a.base.annual_cash_flow
        c.get_total_initial_investment,
      calculate_payback_period c.get_total_initial_investment
        a.base.annual_cash_flow,
      calculate_cap_rate a.base.annual_net_income c.property_price,
      c.get_monthly_payment * 12, c.get_total_initial_investment⟩ :
        AdvancedMetrics).payback_period =
      calculate_payback_period c.get_total_initial_investment
        a.base.annual_cash_flow := rfl
  rw [hpp, hcf]
  unfold calculate_payback_period
  constructor
  · rfl
  · split_ifs
    · exact le_refl 999
    · exact min_le_right _ _

/-- Claim C2 amended witness, instantiated at `cexCalc`. -/
theorem payback_constant_flow_formula_witness :
    ((⟨DSCRValue.finite (189/40), 149/3, 300/149, 63/5, 8000/3, 20000⟩ :
        AdvancedMetrics).payback_period =
      if (cexCalc.get_cash_flow_schedule 1).sum /
          ((cexCalc.get_cash_flow_schedule 1).length : ℚ) ≤ 0 then (999 : ℚ)
      else min (cexCalc.get_total_initial_investment /
        ((cexCalc.get_cash_flow_schedule 1).sum /
          ((cexCalc.get_cash_flow_schedule 1).length : ℚ))) 999) ∧
    (⟨DSCRValue.finite (189/40), 149/3, 300/149, 63/5, 8000/3, 20000⟩ :
        AdvancedMetrics).payback_period ≤ 999 :=
  payback_constant_flow_formula noSolver cexCalc _ cexCalc_advanced

/-- Modelled from the spec: the simple-interest accrual variant. The spec
(and the repository's own test, which passes `interest_type="simple"` to the
constructor) requires a selectable simple-interest mode, absent from
`src/financial_calculator.py`: `__init__` accepts no such argument and
`get_monthly_payment` knows only the annuity formula. Under simple interest
the payment spreads principal plus flat interest evenly:
`(loan + loan * rate/100 * years) / (years * 12)`. -/
def simple_interest_monthly_payment (loan_amount annual_rate : ℚ)
    (loan_term : ℤ) : ℚ :=
  (loan_amount + loan_amount * (annual_rate / 100) * loan_term) /
    ((loan_term : ℚ) * 12)

/-- The worked example constructs successfully and stores exactly
`exampleCalc`. -/
theorem exampleCalc_mk :
    mkFinancialCalculator 100000 20000 30 5 1500 100 0 0 0 10 none =
      .ok exampleCalc := by
  norm_num [mkFinancialCalculator, validate_inputs, bind, Except.bind,
    resolve_resale, exampleCalc]

/-- The annuity payment of the worked example is within 0.1 of 429.46. -/
theorem exampleCalc_payment_abs :
    |exampleCalc.get_monthly_payment - 429.46| < 0.1 := by
  rw [abs_sub_lt_iff]
  simp only [FinancialCalculator.get_monthly_payment,
    FinancialCalculator.get_loan_amount, exampleCalc]
  norm_num

/-- Claim C3, settled against the code: the constructor has no accrual-mode
argument (its state is exactly the `FinancialCalculator` record), so the
test's construction with `interest_type="simple"` raises a `TypeError`; the
worked example constructs only in amortizing mode, whose payment is about
429.46 and more than 0.1 away from the 555.56 the claim expects, while the
spec's simple-interest formula does produce about 555.56. -/
theorem simple_interest_mode_missing :
    mkFinancialCalculator 100000 20000 30 5 1500 100 0 0 0 10 none =
      .ok exampleCalc ∧
    |simple_interest_monthly_payment 80000 5 30 - 555.56| ≤ 0.1 ∧
    ¬ |exampleCalc.get_monthly_payment - 555.56| ≤ 0.1 := by
  refine ⟨exampleCalc_mk,
    by norm_num [simple_interest_monthly_payment, abs_le], ?_⟩
  have h := exampleCalc_payment_abs
  rw [abs_sub_lt_iff] at h
  rw [not_le, abs_sub_comm]
  calc (0.1 : ℚ) < 555.56 - exampleCalc.get_monthly_payment := by
        have := h.1
        norm_num at this ⊢
        linarith
    _ ≤ |555.56 - exampleCalc.get_monthly_payment| := le_abs_self _

/-- Claim C4: the monthly payment is 0 for a non-positive loan, straight-line
`loan / n` for a zero monthly rate, and otherwise the annuity value
`loan * r * (1+r)^n / ((1+r)^n - 1)` with `r = rate/100/12`, `n = term*12`;
on the worked example the loan is 80000 and the payment is within 0.1 of
429.46. -/
theorem monthly_payment_formula :
    (∀ c : FinancialCalculator, validate_inputs c = .ok () →
      (c.get_loan_amount ≤ 0 → c.get_monthly_payment = 0) ∧
      (¬ c.get_loan_amount ≤ 0 → c.interest_rate / 100 / 12 = 0 →
        c.get_monthly_payment =
          c.get_loan_amount / ((c.loan_term * 12 : ℤ) : ℚ)) ∧
      (¬ c.get_loan_amount ≤ 0 → c.interest_rate / 100 / 12 ≠ 0 →
        c.get_monthly_payment =
          c.get_loan_amount * (c.interest_rate / 100 / 12 *
              (1 + c.interest_rate / 100 / 12) ^ (c.loan_term * 12)) /
            ((1 + c.interest_rate / 100 / 12) ^ (c.loan_term * 12) - 1))) ∧
    mkFinancialCalculator 100000 20000 30 5 1500 100 0 0 0 10 none =
      .ok exampleCalc ∧
    exampleCalc.get_loan_amount = 80000 ∧
    |exampleCalc.get_monthly_payment - 429.46| < 0.1 := by
  refine ⟨fun c hv => ⟨fun hle => ?_, fun hgt hr0 => ?_, fun hgt hr0 => ?_⟩,
    exampleCalc_mk, by norm_num [FinancialCalculator.get_loan_amount,
      exampleCalc], exampleCalc_payment_abs⟩
  · simp [FinancialCalculator.get_monthly_payment, hle]
  · simp [FinancialCalculator.get_monthly_payment, hgt, hr0]
  · simp [FinancialCalculator.get_monthly_payment, hgt, hr0]

/-- Claim C4 witness: the annuity branch at the worked example. -/
theorem monthly_payment_formula_witness :
    validate_inputs exampleCalc = .ok () ∧
    (¬ exampleCalc.get_loan_amount ≤ 0 →
      exampleCalc.interest_rate / 100 / 12 ≠ 0 →
      exampleCalc.get_monthly_payment =
        exampleCalc.get_loan_amount * (exampleCalc.interest_rate / 100 / 12 *
            (1 + exampleCalc.interest_rate / 100 / 12) ^
              (exampleCalc.loan_term * 12)) /
          ((1 + exampleCalc.interest_rate / 100 / 12) ^
              (exampleCalc.loan_term * 12) - 1)) :=
  ⟨exampleCalc_valid,
    (monthly_payment_formula.1 exampleCalc exampleCalc_valid).2.2⟩

/-- Let-free unfolding of `get_irr`. -/
theorem get_irr_eq (solver : List ℚ → SolverOutcome) (c : FinancialCalculator)
    (m : ℚ) :
    c.get_irr solver m =
      match add_to_last (c.resale_value - c.property_price)
          (c.get_cash_flow_schedule m) with
      | none => none
      | some flows =>
        match solver (-c.get_total_initial_investment :: flows) with
        | .retReal irr => some (irr * 100)
        | _ => none := rfl

/-- Claim C5: `get_irr` is total. On an empty schedule (the `IndexError` of
`cash_flows[-1]`) the result is `None`; when the solver fails in any guarded
way the result is `None`, never 0 and never an error; and when the solver
returns a real finite rate the result is 100 times a rate at which the NPV of
the vector `[-totalInitialInvestment] ++ flows` (the cash-flow schedule with
the capital gain added to its last entry) is zero. -/
theorem irr_root_or_absent (solver : List ℚ → SolverOutcome)
    (c : FinancialCalculator) (m : ℚ) (hv : validate_inputs c = .ok ())
    (hsolver : ∀ cf r, solver cf = .retReal r → npv r cf = 0) :
    (add_to_last (c.resale_value - c.property_price)
        (c.get_cash_flow_schedule m) = none →
      c.get_irr solver m = none) ∧
    (∀ flows, add_to_last (c.resale_value - c.property_price)
        (c.get_cash_flow_schedule m) = some flows →
      ((∀ r, solver (-c.get_total_initial_investment :: flows) ≠ .retReal r) →
        c.get_irr solver m = none) ∧
      (∀ r, solver (-c.get_total_initial_investment :: flows) = .retReal r →
        c.get_irr solver m = some (r * 100) ∧
        npv r (-c.get_total_initial_investment :: flows) = 0)) := by
  constructor
  · intro h0
    rw [get_irr_eq, h0]
  · intro flows hf
    constructor
    · intro hnr
      rw [get_irr_eq, hf]
      show (match solver (-c.get_total_initial_investment :: flows) with
        | SolverOutcome.retReal irr => some (irr * 100)
        | _ => none) = none
      cases hs : solver (-c.get_total_initial_investment :: flows) with
      | unavailable => rfl
      | raised => rfl
      | retNone => rfl
      | retNaN => rfl
      | retInf => rfl
      | retComplex => rfl
      | retReal r => exact absurd hs (hnr r)
    · intro r hr
      refine ⟨?_, hsolver _ _ hr⟩
      rw [get_irr_eq, hf]
      show (match solver (-c.get_total_initial_investment :: flows) with
        | SolverOutcome.retReal irr => some (irr * 100)
        | _ => none) = some (r * 100)
      rw [hr]

/-- A calculator whose IRR cash-flow vector is exactly `[-100000, 120000]`:
fully financed purchase (zero loan), one holding year, rent 25000/3 at full
occupancy, default resale 120000. -/
def irrCalc : FinancialCalculator :=
  ⟨100000, 100000, 30, 0, 25000/3, 100, 0, 0, 0, 1, 120000⟩

/-- A solver that knows the root 1/5 of the vector `[-100000, 120000]` and
reports `None` on everything else. -/
def witnessSolver : List ℚ → SolverOutcome :=
  fun cf => if cf = [-100000, 120000] then .retReal (1/5) else .retNone

/-- The witness solver only returns genuine NPV roots. -/
theorem witnessSolver_sound :
    ∀ cf r, witnessSolver cf = .retReal r → npv r cf = 0 := by
  intro cf r h
  unfold witnessSolver at h
  by_cases hc : cf = [-100000, 120000]
  · rw [if_pos hc] at h
    simp only [SolverOutcome.retReal.injEq] at h
    subst hc
    rw [← h]
    norm_num [npv, List.enum, List.enumFrom]
  · rw [if_neg hc] at h
    exact absurd h (by simp)

/-- The irrCalc inputs pass validation. -/
theorem irrCalc_valid : validate_inputs irrCalc = .ok () := by
  rw [validate_inputs_eq_ok_iff]
  norm_num [irrCalc]

/-- Claim C5 witness: on `irrCalc` the solver sees `[-100000, 120000]`,
returns the rate 1/5, and `get_irr` reports 20 percent; the NPV of the vector
at 1/5 is zero. -/
theorem irr_root_or_absent_witness :
    irrCalc.get_irr witnessSolver 1 = some ((1/5 : ℚ) * 100) ∧
    npv (1/5) (-irrCalc.get_total_initial_investment :: [120000]) = 0 := by
  have hflows : add_to_last (irrCalc.resale_value - irrCalc.property_price)
      (irrCalc.get_cash_flow_schedule 1) = some [120000] := by
    simp only [FinancialCalculator.get_cash_flow_schedule,
      FinancialCalculator.get_annual_cash_flow_for_year,
      FinancialCalculator.get_monthly_cash_flow_for_year,
      FinancialCalculator.get_effective_monthly_rent_for_year,
      FinancialCalculator.get_monthly_rent_for_year,
      FinancialCalculator.rent_growth_factor,
      FinancialCalculator.get_monthly_payment,
      FinancialCalculator.get_loan_amount, irrCalc,
      List.range_succ, List.range_zero, Int.reduceToNat, add_to_last]
    norm_num
  have hsolve : witnessSolver
      (-irrCalc.get_total_initial_investment :: [120000]) =
      .retReal (1/5) := by
    norm_num [witnessSolver, FinancialCalculator.get_total_initial_investment,
      irrCalc]
  exact (irr_root_or_absent witnessSolver irrCalc 1 irrCalc_valid
    witnessSolver_sound).2 [120000] hflows |>.2 (1/5) hsolve

/-- One amortization step keeps the balance inside `[0, bal]` and preserves
the invariant `balance * rate ≤ payment`. -/
theorem amortization_step (p r bal : ℚ) (hr : 0 ≤ r) (hb : 0 < bal)
    (hinv : bal * r ≤ p) :
    0 ≤ bal - min (p - bal * r) bal ∧
    bal - min (p - bal * r) bal ≤ bal ∧
    (bal - min (p - bal * r) bal) * r ≤ p := by
  have h1 : min (p - bal * r) bal ≤ bal := min_le_right _ _
  have h2 : 0 ≤ min (p - bal * r) bal := le_min (by linarith) (le_of_lt hb)
  refine ⟨by linarith, by linarith, ?_⟩
  have h3 : (bal - min (p - bal * r) bal) * r ≤ bal * r :=
    mul_le_mul_of_nonneg_right (by linarith) hr
  linarith

/-- Every reported balance in the amortization loop is non-negative. -/
theorem amortization_loop_balance_nonneg (p r : ℚ) :
    ∀ (fuel : ℕ) (bal : ℚ) (k : ℕ),
      ∀ e ∈ FinancialCalculator.amortization_loop p r bal k fuel,
        0 ≤ e.balance := by
  intro fuel
  induction fuel with
  | zero =>
    intro bal k e he
    simp [FinancialCalculator.amortization_loop] at he
  | succ n ih =>
    intro bal k e he
    simp only [FinancialCalculator.amortization_loop] at he
    by_cases hb : bal ≤ 0
    · simp [hb] at he
    · simp only [if_neg hb, List.mem_cons] at he
      rcases he with rfl | he
      · exact le_max_left 0 _
      · exact ih _ _ e he

/-- Under the invariant `bal * r ≤ p`, every entry of the loop started at
`bal` reports a balance at most `max 0 bal`. -/
theorem amortization_loop_balance_le (p r : ℚ) (hr : 0 ≤ r) :
    ∀ (fuel : ℕ) (bal : ℚ) (k : ℕ), bal * r ≤ p →
      ∀ e ∈ FinancialCalculator.amortization_loop p r bal k fuel,
        e.balance ≤ max 0 bal := by
  intro fuel
  induction fuel with
  | zero =>
    intro bal k hinv e he
    simp [FinancialCalculator.amortization_loop] at he
  | succ n ih =>
    intro bal k hinv e he
    simp only [FinancialCalculator.amortization_loop] at he
    by_cases hb : bal ≤ 0
    · simp [hb] at he
    · push_neg at hb
      simp only [if_neg (not_le.mpr hb), List.mem_cons] at he
      obtain ⟨hs0, hs1, hs2⟩ := amortization_step p r bal hr hb hinv
      rcases he with rfl | he
      · exact max_le_max (le_refl 0) hs1
      · exact le_trans (ih _ _ hs2 e he) (max_le_max (le_refl 0) hs1)

/-- Under the invariant the reported balances are non-increasing. -/
theorem amortization_loop_chain (p r : ℚ) (hr : 0 ≤ r) :
    ∀ (fuel : ℕ) (bal : ℚ) (k : ℕ), bal * r ≤ p →
      List.Chain' (fun a b => b.balance ≤ a.balance)
        (FinancialCalculator.amortization_loop p r bal k fuel) := by
  intro fuel
  induction fuel with
  | zero =>
    intro bal k hinv
    simp [FinancialCalculator.amortization_loop]
  | succ n ih =>
    intro bal k hinv
    simp only [FinancialCalculator.amortization_loop]
    by_cases hb : bal ≤ 0
    · simp [hb]
    · push_neg at hb
      rw [if_neg (not_le.mpr hb), List.chain'_cons']
      obtain ⟨hs0, hs1, hs2⟩ := amortization_step p r bal hr hb hinv
      refine ⟨fun b hb' => ?_, ih _ _ hs2⟩
      have hmem := List.mem_of_mem_head? hb'
      have := amortization_loop_balance_le p r hr n _ (k + 1) hs2 b hmem
      simpa using this

/-- The loop emits at most `fuel` entries. -/
theorem amortization_loop_length (p r : ℚ) :
    ∀ (fuel : ℕ) (bal : ℚ) (k : ℕ),
      (FinancialCalculator.amortization_loop p r bal k fuel).length ≤ fuel := by
  intro fuel
  induction fuel with
  | zero => intro bal k; simp [FinancialCalculator.amortization_loop]
  | succ n ih =>
    intro bal k
    simp only [FinancialCalculator.amortization_loop]
    by_cases hb : bal ≤ 0
    · simp [hb]
    · rw [if_neg hb]
      simpa using Nat.succ_le_succ (ih _ (k + 1))

/-- A non-empty loop output can only start from a positive balance. -/
theorem amortization_loop_ne_nil (p r : ℚ) (fuel : ℕ) (bal : ℚ) (k : ℕ)
    (h : FinancialCalculator.amortization_loop p r bal k fuel ≠ []) :
    0 < bal := by
  cases fuel with
  | zero => simp [FinancialCalculator.amortization_loop] at h
  | succ n =>
    by_cases hb : bal ≤ 0
    · simp [FinancialCalculator.amortization_loop, hb] at h
    · linarith [not_le.mp hb]

/-- Every non-final entry of the loop has a positive reported balance: the
loop stops as soon as the balance reaches 0. -/
theorem amortization_loop_stop (p r : ℚ) :
    ∀ (fuel : ℕ) (bal : ℚ) (k : ℕ),
      ∀ e ∈ (FinancialCalculator.amortization_loop p r bal k fuel).dropLast,
        0 < e.balance := by
  intro fuel
  induction fuel with
  | zero =>
    intro bal k e he
    simp [FinancialCalculator.amortization_loop] at he
  | succ n ih =>
    intro bal k e he
    simp only [FinancialCalculator.amortization_loop] at he
    by_cases hb : bal ≤ 0
    · simp [hb] at he
    · rw [if_neg hb] at he
      cases htail : FinancialCalculator.amortization_loop p r
          (bal - min (p - bal * r) bal) (k + 1) n with
      | nil =>
        rw [htail] at he
        simp at he
      | cons t ts =>
        rw [htail] at he
        rw [List.dropLast_cons₂] at he
        rcases List.mem_cons.mp he with rfl | he2
        · have hbal' : 0 < bal - min (p - bal * r) bal :=
            amortization_loop_ne_nil p r n _ (k + 1) (by rw [htail]; simp)
          exact lt_max_of_lt_right hbal'
        · rw [← htail] at he2
          exact ih _ (k + 1) e he2

/-- On a validly constructed calculator, one month of interest on the full
loan never exceeds the monthly payment. This is the invariant that keeps the
amortization schedule monotone. -/
theorem payment_ge_rate (c : FinancialCalculator)
    (hv : validate_inputs c = .ok ()) :
    c.get_loan_amount * (c.interest_rate / 100 / 12) ≤ c.get_monthly_payment := by
  obtain ⟨-, -, -, hterm, hir, -, -, -, -⟩ := (validate_inputs_eq_ok_iff c).mp hv
  have hr : 0 ≤ c.interest_rate / 100 / 12 := by linarith
  simp only [FinancialCalculator.get_monthly_payment]
  by_cases hla : c.get_loan_amount ≤ 0
  · rw [if_pos hla]
    have := mul_le_mul_of_nonneg_right hla hr
    simpa using this
  · rw [if_neg hla]
    push_neg at hla
    by_cases hr0 : c.interest_rate / 100 / 12 = 0
    · rw [if_pos hr0, hr0, mul_zero]
      have hn : (0 : ℚ) < ((c.loan_term * 12 : ℤ) : ℚ) := by
        have : (0 : ℤ) < c.loan_term * 12 := by omega
        exact_mod_cast this
      positivity
    · rw [if_neg hr0]
      have hrpos : 0 < c.interest_rate / 100 / 12 :=
        lt_of_le_of_ne hr (Ne.symm hr0)
      have hnn : (0 : ℤ) ≤ c.loan_term * 12 := by omega
      have hQ : (1 + c.interest_rate / 100 / 12) ^ (c.loan_term * 12) =
          (1 + c.interest_rate / 100 / 12) ^ ((c.loan_term * 12).toNat) := by
        rw [← zpow_natCast]
        congr 1
        omega
      have hQ1 : 1 < (1 + c.interest_rate / 100 / 12) ^
          ((c.loan_term * 12).toNat) :=
        one_lt_pow₀ (by linarith) (by omega)
      rw [hQ, le_div_iff₀ (by linarith)]
      nlinarith [mul_pos hla hrpos]

/-- Claim C6: for every validly constructed calculator and every requested
period count, the amortization schedule's balances are monotonically
non-increasing and non-negative, the schedule has at most
`min (requested, loan_term * 12)` entries, and generation stops once the
balance reaches 0 (every non-final entry has positive balance). -/
theorem amortization_schedule_invariants (c : FinancialCalculator)
    (hv : validate_inputs c = .ok ()) (num_periods : Option ℤ) :
    List.Chain' (fun a b => b.balance ≤ a.balance)
      (c.get_amortization_schedule num_periods) ∧
    (∀ e ∈ c.get_amortization_schedule num_periods, 0 ≤ e.balance) ∧
    (c.get_amortization_schedule num_periods).length ≤
      (min (num_periods.getD (c.loan_term * 12)) (c.loan_term * 12)).toNat ∧
    (∀ e ∈ (c.get_amortization_schedule num_periods).dropLast,
      0 < e.balance) := by
  have hr : 0 ≤ c.interest_rate / 100 / 12 := by
    obtain ⟨-, -, -, -, hir, -, -, -, -⟩ := (validate_inputs_eq_ok_iff c).mp hv
    linarith
  have hinv := payment_ge_rate c hv
  simp only [FinancialCalculator.get_amortization_schedule]
  exact ⟨amortization_loop_chain _ _ hr _ _ 1 hinv,
    fun e he => amortization_loop_balance_nonneg _ _ _ _ 1 e he,
    amortization_loop_length _ _ _ _ 1,
    fun e he => amortization_loop_stop _ _ _ _ 1 e he⟩

/-- Claim C6 witness: the worked example with 60 requested periods. -/
theorem amortization_schedule_invariants_witness :
    List.Chain' (fun a b => b.balance ≤ a.balance)
      (exampleCalc.get_amortization_schedule (some 60)) ∧
    (∀ e ∈ exampleCalc.get_amortization_schedule (some 60), 0 ≤ e.balance) ∧
    (exampleCalc.get_amortization_schedule (some 60)).length ≤
      (min ((some (60 : ℤ)).getD (exampleCalc.loan_term * 12))
        (exampleCalc.loan_term * 12)).toNat ∧
    (∀ e ∈ (exampleCalc.get_amortization_schedule (some 60)).dropLast,
      0 < e.balance) :=
  amortization_schedule_invariants exampleCalc exampleCalc_valid (some 60)

